import Mathlib

/-!
Verification of the parametric-CAD scripts in this repository against their
natural-language specification.  Every numeric computation of the Python
sources is embedded over `ℚ` (the sources use exact decimal literals, so the
rational embedding is faithful); geometry-kernel calls (primitive
construction, boolean operations, fillets) are modelled as events or as
oracle functions that may fail, mirroring try/except in the sources.
-/

namespace Models3D

/-- The clamp helper shared by the mount and TPU macros:
`clamp(val, lo, hi) = max(lo, min(hi, val))`. -/
def clamp (val lo hi : ℚ) : ℚ := max lo (min hi val)

/-! ## Seatbelt-buckle sleeves (src/car): derived sizes -/

/-- Derived inner cavity width: `inner_w = buckle_width + 2 * clearance`. -/
def inner_w (buckle_width clearance : ℚ) : ℚ := buckle_width + 2 * clearance

/-- Derived inner cavity depth: `inner_d = buckle_depth + 2 * clearance`. -/
def inner_d (buckle_depth clearance : ℚ) : ℚ := buckle_depth + 2 * clearance

/-- Derived outer width: `outer_w = inner_w + 2 * wall`. -/
def outer_w (buckle_width clearance wall : ℚ) : ℚ :=
  inner_w buckle_width clearance + 2 * wall

/-- Derived outer depth: `outer_d = inner_d + 2 * wall`. -/
def outer_d (buckle_depth clearance wall : ℚ) : ℚ :=
  inner_d buckle_depth clearance + 2 * wall

/-! ## make_rounded_box radius clamping (src/car/seatbelt_buckle_sleeve.py) -/

/-- The effective corner radius computed by `make_rounded_box`:
`max_r = min(length_x, width_y) / 2 - 0.1`;
`r = min(corner_r, max_r) if corner_r > 0 else 0`. -/
def effective_corner_radius (length_x width_y corner_r : ℚ) : ℚ :=
  let max_r := min length_x width_y / 2 - 1/10
  if corner_r > 0 then min corner_r max_r else 0

/-! ## Antenna calculated dimensions (src/flowerpot_antenna_FreeCAD_macro.py) -/

def TARGET_FREQ_MHZ : ℚ := 127

def C_MM_PER_SEC : ℚ := 299792458000

def WAVELENGTH : ℚ := C_MM_PER_SEC / (TARGET_FREQ_MHZ * 1000000)

def VF_RADIATOR : ℚ := 95/100

def TRIM_FACTOR : ℚ := 102/100

def HALF_WAVE_NOMINAL : ℚ := (WAVELENGTH / 2) * VF_RADIATOR

def QUARTER_WAVE_NOMINAL : ℚ := WAVELENGTH / 4

def HALF_WAVE : ℚ := HALF_WAVE_NOMINAL * TRIM_FACTOR

def QUARTER_WAVE : ℚ := QUARTER_WAVE_NOMINAL * TRIM_FACTOR

def TOTAL_ANTENNA_LENGTH : ℚ := HALF_WAVE + QUARTER_WAVE

def MAX_PRINT_HEIGHT : ℚ := 240

def JOINT_LENGTH : ℚ := 25

def SECTION_BODY_LENGTH : ℚ := MAX_PRINT_HEIGHT - JOINT_LENGTH

def NUM_SECTIONS : ℤ := ⌈TOTAL_ANTENNA_LENGTH / SECTION_BODY_LENGTH⌉

def TUBE_OD : ℚ := 32

def WALL_THICKNESS : ℚ := 5/2

def OUTER_R : ℚ := TUBE_OD / 2

def NUM_DRAIN_HOLES : ℕ := 4

/-! ## Pocket / undercut depth clamping (mount macros) -/

/-- Depth of the compression pocket actually cut:
`max_depth_allowed = max(0.1, HORIZONTAL_THICKNESS - MIN_FLOOR_THICKNESS)`;
`depth = clamp(POCKET_DEPTH, 0.1, max_depth_allowed)`. -/
def pocket_cut_depth (POCKET_DEPTH HORIZONTAL_THICKNESS MIN_FLOOR_THICKNESS : ℚ) : ℚ :=
  clamp POCKET_DEPTH (1/10) (max (1/10) (HORIZONTAL_THICKNESS - MIN_FLOOR_THICKNESS))

/-- Depth of the underside damping slot actually cut:
`umax_depth = max(0.1, HORIZONTAL_THICKNESS - UNDERCUT_MIN_FLOOR)`;
`udepth = clamp(UNDERCUT_DEPTH, 0.1, umax_depth)`. -/
def undercut_cut_depth (UNDERCUT_DEPTH HORIZONTAL_THICKNESS UNDERCUT_MIN_FLOOR : ℚ) : ℚ :=
  clamp UNDERCUT_DEPTH (1/10) (max (1/10) (HORIZONTAL_THICKNESS - UNDERCUT_MIN_FLOOR))

/-! ## Drain-hole placement (create_bottom_cap, antenna macro)

The Python code computes `angle = i * (360 / NUM_DRAIN_HOLES) + 45`,
`rad = math.radians(angle)`, and places each drain cutter at
`x = (OUTER_R - WALL_THICKNESS) * cos(rad)`, `y = ... * sin(rad)`.
The trigonometric functions and pi live in the external math library, so the
embedding is generic over a field `K` together with `piK`, `cosK`, `sinK`. -/

/-- Python `math.radians`: `deg * pi / 180`. -/
def radians {K : Type} [Field K] (piK : K) (deg : K) : K := deg * piK / 180

/-- The centers of the drain-hole cutters produced by the loop in
`create_bottom_cap`, in loop order. -/
def bottom_cap_drain_centers (K : Type) [Field K] (piK : K) (cosK sinK : K → K) :
    List (K × K) :=
  (List.range NUM_DRAIN_HOLES).map (fun (i : ℕ) =>
    let angle : K := (i : K) * (360 / (NUM_DRAIN_HOLES : K)) + 45
    let rad := radians piK angle
    (((OUTER_R - WALL_THICKNESS : ℚ) : K) * cosK rad,
     ((OUTER_R - WALL_THICKNESS : ℚ) : K) * sinK rad))

/-! ## Bounding boxes and side-by-side preview placement (TPU macros) -/

/-- An axis-aligned bounding box, as reported by `Shape.BoundBox`. -/
structure BB where
  xmin : ℚ
  xmax : ℚ
  ymin : ℚ
  ymax : ℚ
  zmin : ℚ
  zmax : ℚ
  deriving DecidableEq, Repr

/-- Rigid translation of a bounding box (the effect of `shape.translate`). -/
def translateBB (b : BB) (dx dy dz : ℚ) : BB :=
  ⟨b.xmin + dx, b.xmax + dx, b.ymin + dy, b.ymax + dy, b.zmin + dz, b.zmax + dz⟩

/-- Membership of a point in a bounding box. -/
def memBB (b : BB) (q : ℚ × ℚ × ℚ) : Prop :=
  b.xmin ≤ q.1 ∧ q.1 ≤ b.xmax ∧ b.ymin ≤ q.2.1 ∧ q.2.1 ≤ b.ymax ∧
    b.zmin ≤ q.2.2 ∧ q.2.2 ≤ b.zmax

/-- `place_side_by_side` from the TPU macros, acting on the bounding boxes of
the two shapes: both shapes are first translated so their bounding-box minima
sit at the origin, then the strip is moved along x by
`pad.XMax + PREVIEW_GAP + PREVIEW_PAD`. -/
def place_side_by_side (PREVIEW_GAP PREVIEW_PAD : ℚ) (pad strip : BB) : BB × BB :=
  let pad1 := translateBB pad (-pad.xmin) (-pad.ymin) (-pad.zmin)
  let strip1 := translateBB strip (-strip.xmin) (-strip.ymin) (-strip.zmin)
  let dx := pad1.xmax + PREVIEW_GAP + PREVIEW_PAD
  (pad1, translateBB strip1 dx 0 0)

/-! ## Fillet steps with a fallible kernel

`makeFillet` and `removeSplitter` are calls into the external CAD kernel that
may raise; they are modelled as oracle functions returning `Option` (`none`
standing for a raised exception, which the source catches). -/

/-- A solid as far as the fillet code observes it: its edge bounding boxes,
plus an identity so that distinct solids stay distinct. -/
structure KShape where
  uid : ℕ
  edges : List BB
  deriving DecidableEq, Repr

def xLength (b : BB) : ℚ := b.xmax - b.xmin

def yLength (b : BB) : ℚ := b.ymax - b.ymin

def zLength (b : BB) : ℚ := b.zmax - b.zmin

/-- The candidate-edge filter of `safe_fillet` (mount macros): skip edges with
all three bounding-box lengths below 0.25, keep edges whose largest
bounding-box length is at least 15. -/
def fillet_candidate_edges (s : KShape) : List BB :=
  s.edges.filter (fun bb =>
    decide (¬(xLength bb < 1/4 ∧ yLength bb < 1/4 ∧ zLength bb < 1/4) ∧
      15 ≤ max (max (xLength bb) (yLength bb)) (zLength bb)))

/-- `safe_fillet` from the mount macros: returns the shape unchanged for a
non-positive radius; otherwise tries `removeSplitter` (failure ignored),
collects candidate edges, returns the current shape if none qualify, and
falls back to the current shape when `makeFillet` raises. -/
def safe_fillet (removeSplitterK : KShape → Option KShape)
    (makeFilletK : KShape → ℚ → List BB → Option KShape)
    (shape : KShape) (radius : ℚ) : KShape :=
  if radius ≤ 0 then shape
  else
    let shape1 := (removeSplitterK shape).getD shape
    let edges := fillet_candidate_edges shape1
    if edges.isEmpty then shape1
    else (makeFilletK shape1 radius edges).getD shape1

/-- The edge selection of the top-rim fillet in the sleeve scripts: edges
whose bounding box is degenerate in z at `sleeve_height` within 0.5. -/
def top_rim_candidate_edges (shape : KShape) (sleeve_height : ℚ) : List BB :=
  shape.edges.filter (fun bb =>
    decide (|bb.zmin - sleeve_height| < 1/2 ∧ |bb.zmax - sleeve_height| < 1/2))

/-- The top-rim fillet step of the sleeve scripts: when the candidate set is
empty nothing happens, and a raising `makeFillet` is caught, keeping the
pre-fillet shape. -/
def top_rim_fillet_step (makeFilletK : KShape → ℚ → List BB → Option KShape)
    (shape : KShape) (top_rim_radius sleeve_height : ℚ) : KShape :=
  if 0 < top_rim_radius then
    let top_edges := top_rim_candidate_edges shape sleeve_height
    if top_edges.isEmpty then shape
    else (makeFilletK shape top_rim_radius top_edges).getD shape
  else shape

/-! ## TPU strips macro (TPU_Damping_Strips_..._v2.py) -/

/-- A placed axis-aligned box: `Part.makeBox(lx, ly, lz)` followed by
`translate(Vector(x, y, z))`. -/
structure PlacedBox where
  x : ℚ
  y : ℚ
  z : ℚ
  lx : ℚ
  ly : ℚ
  lz : ℚ
  deriving DecidableEq, Repr

/-- The parameters of the v2 TPU strips macro. -/
structure TpuParams where
  INSIDE_FORWARD_SHIFT : ℚ
  HORIZONTAL_LENGTH : ℚ
  HORIZONTAL_THICKNESS : ℚ
  WIDTH : ℚ
  POCKET_X_START : ℚ
  POCKET_LENGTH : ℚ
  POCKET_Y_MARGIN : ℚ
  POCKET_DEPTH : ℚ
  UNDERCUT_ENABLE : Bool
  UNDERCUT_X_START : ℚ
  UNDERCUT_LENGTH : ℚ
  UNDERCUT_Y_MARGIN : ℚ
  UNDERCUT_DEPTH : ℚ
  TPU_POCKET_THICKNESS : ℚ
  TPU_UNDERCUT_STRIP_THICKNESS : ℚ
  TPU_UNDERCUT_MATCH_SLOT : Bool
  TPU_STRIP_LENGTH : ℚ
  TPU_STRIP_WIDTH : ℚ
  CENTER_STRIP_IN_X : Bool
  CENTER_STRIP_IN_Y : Bool
  deriving Repr

/-- The source defaults of the v2 TPU strips macro. -/
def TpuParams.defaults : TpuParams where
  INSIDE_FORWARD_SHIFT := 3.8
  HORIZONTAL_LENGTH := 86.0
  HORIZONTAL_THICKNESS := 5.0
  WIDTH := 54.0
  POCKET_X_START := 2.0
  POCKET_LENGTH := 24.0
  POCKET_Y_MARGIN := 4.0
  POCKET_DEPTH := 1.8
  UNDERCUT_ENABLE := true
  UNDERCUT_X_START := 6.0
  UNDERCUT_LENGTH := 60.0
  UNDERCUT_Y_MARGIN := 3.0
  UNDERCUT_DEPTH := 1.2
  TPU_POCKET_THICKNESS := 1.6
  TPU_UNDERCUT_STRIP_THICKNESS := 1.0
  TPU_UNDERCUT_MATCH_SLOT := true
  TPU_STRIP_LENGTH := 60.0
  TPU_STRIP_WIDTH := 30.0
  CENTER_STRIP_IN_X := false
  CENTER_STRIP_IN_Y := false

/-- `make_tpu_pocket_insert_shape`: the pad box and the reported
(length, width, thickness). -/
def make_tpu_pocket_insert_shape (p : TpuParams) : PlacedBox × ℚ × ℚ × ℚ :=
  let pocket_len := clamp p.POCKET_LENGTH 1 p.HORIZONTAL_LENGTH
  let pocket_w := clamp (p.WIDTH - 2 * p.POCKET_Y_MARGIN) 1 p.WIDTH
  let t := clamp p.TPU_POCKET_THICKNESS (2/10) p.POCKET_DEPTH
  let z_floor := p.HORIZONTAL_THICKNESS - p.POCKET_DEPTH
  (⟨p.POCKET_X_START, p.POCKET_Y_MARGIN, z_floor, pocket_len, pocket_w, t⟩,
   pocket_len, pocket_w, t)

/-- `horizontal_actual_length = HORIZONTAL_LENGTH - INSIDE_FORWARD_SHIFT`. -/
def tpu_hal (p : TpuParams) : ℚ := p.HORIZONTAL_LENGTH - p.INSIDE_FORWARD_SHIFT

/-- The `strip_len` computed by `make_tpu_undercut_strip_shape`. -/
def tpu_strip_len (p : TpuParams) : ℚ :=
  if p.TPU_UNDERCUT_MATCH_SLOT then clamp p.UNDERCUT_LENGTH 5 (tpu_hal p)
  else clamp p.TPU_STRIP_LENGTH 5 (tpu_hal p)

/-- The `strip_w` computed by `make_tpu_undercut_strip_shape`. -/
def tpu_strip_w (p : TpuParams) : ℚ :=
  if p.TPU_UNDERCUT_MATCH_SLOT then clamp (p.WIDTH - 2 * p.UNDERCUT_Y_MARGIN) 5 p.WIDTH
  else clamp p.TPU_STRIP_WIDTH 5 p.WIDTH

/-- The `strip_t` computed by `make_tpu_undercut_strip_shape`. -/
def tpu_strip_t (p : TpuParams) : ℚ :=
  clamp p.TPU_UNDERCUT_STRIP_THICKNESS (2/10) p.UNDERCUT_DEPTH

/-- The strip x placement computed by `make_tpu_undercut_strip_shape`. -/
def tpu_strip_x (p : TpuParams) : ℚ :=
  if p.CENTER_STRIP_IN_X then
    p.INSIDE_FORWARD_SHIFT + (tpu_hal p - tpu_strip_len p) / 2
  else clamp p.UNDERCUT_X_START 0 (p.HORIZONTAL_LENGTH - tpu_strip_len p)

/-- The strip y placement computed by `make_tpu_undercut_strip_shape`. -/
def tpu_strip_y (p : TpuParams) : ℚ :=
  if p.CENTER_STRIP_IN_Y then (p.WIDTH - tpu_strip_w p) / 2
  else clamp p.UNDERCUT_Y_MARGIN 0 (p.WIDTH - tpu_strip_w p)

/-- `make_tpu_undercut_strip_shape`: raises (is `Except.error`) when the
undercut feature is disabled or the horizontal run is non-positive;
otherwise builds the strip box along with its (length, width, thickness). -/
def make_tpu_undercut_strip_shape (p : TpuParams) :
    Except String (PlacedBox × ℚ × ℚ × ℚ) :=
  if !p.UNDERCUT_ENABLE then
    .error "UNDERCUT_ENABLE is False in this TPU macro."
  else if tpu_hal p ≤ 0 then
    .error "HORIZONTAL_LENGTH must be > INSIDE_FORWARD_SHIFT."
  else
    .ok (⟨tpu_strip_x p, tpu_strip_y p, 0, tpu_strip_len p, tpu_strip_w p,
          tpu_strip_t p⟩,
         tpu_strip_len p, tpu_strip_w p, tpu_strip_t p)

/-! ## Document registration behaviour of each build script (claim about
idempotent reruns)

The host document is modelled as the list of registered object names.  Each
script issues a fixed sequence of document operations: conditional removal
(`if doc.getObject(name): doc.removeObject(name)`) and registration
(`doc.addObject("Part::Feature", name)`). -/

inductive DocOp where
  | removeIf (name : String)
  | add (name : String)
  deriving DecidableEq, Repr

/-- Effect of one document operation on the registry. -/
def applyDocOp (doc : List String) : DocOp → List String
  | .removeIf n => if n ∈ doc then doc.filter (fun m => m ≠ n) else doc
  | .add n => doc ++ [n]

/-- Run a whole script's document-operation sequence. -/
def runDocOps (ops : List DocOp) (doc : List String) : List String :=
  ops.foldl applyDocOp doc

/-- Document operations of src/car/seatbelt_buckle_sleeve.py: the clean-rerun
removal loop, then registration of the sleeve. -/
def sleeve_doc_ops : List DocOp :=
  [.removeIf "BuckleSleeveEnclosed", .removeIf "OuterBox", .removeIf "InnerCavity",
   .add "BuckleSleeveEnclosed"]

/-- Document operations of src/car/C_shaoe_seatbelt_buckle_sleeve.py. -/
def cshape_doc_ops : List DocOp :=
  [.removeIf "BuckleSleeveC", .removeIf "OuterBox", .removeIf "InnerCavity",
   .removeIf "SlotCutter", .removeIf "LeadInCutter", .add "BuckleSleeveC"]

/-- Document operations of both camera-mount macros: a single registration,
with no prior removal anywhere in the script. -/
def mount_doc_ops : List DocOp := [.add "WindowCameraMount"]

/-- Document operations of the v2 TPU strips macro: two registrations, no
removals. -/
def tpu_v2_doc_ops : List DocOp :=
  [.add "TPU_Pocket_Insert", .add "TPU_Undercut_Strip"]

/-! ## Kernel-call trace of create_camera_mount (v2 mount macro)

The claim under test is about the order of kernel calls relative to the
mounting-hole margin check, so the embedding records the sequence of
primitive constructions and boolean operations the function issues, along
with the error it raises, if any.  Numeric parameters that affect neither
control flow nor any error value (pure positions and sizes) do not appear
in the trace and are omitted from the parameter structure. -/

/-- One geometry-kernel call: primitive construction (`Part.makeBox`,
`Part.makeCylinder`) or a boolean operation (`fuse`, `cut`). -/
inductive Ev where
  | box
  | cyl
  | fuseOp
  | cutOp
  deriving DecidableEq, Repr

/-- The errors `create_camera_mount` can raise, carrying the numeric values
interpolated into the corresponding message strings. -/
inductive MountErr where
  | horizTooSmall
  | hole1TooClose (y1 min_y : ℚ)
  | hole2TooClose (y2 max_y : ℚ)
  | guyMarginsTooLarge
  | badGuyMode
  deriving DecidableEq, Repr

/-- Parameters of the v2 mount macro that influence the kernel-call sequence
or a raised error. -/
structure MountParams where
  INSIDE_FORWARD_SHIFT : ℚ
  BACK_TRIM_ENABLE : Bool
  HORIZONTAL_LENGTH : ℚ
  WIDTH : ℚ
  HOLE_DIAMETER : ℚ
  SECOND_HOLE : Bool
  HOLE_SPACING_Y : ℚ
  HOLE_2_OFFSET : ℚ
  HOLE_PAIR_SHIFT : ℚ
  MIN_EDGE_MARGIN_Y : ℚ
  POCKET_ENABLE_TOP : Bool
  POCKET_ENABLE_BOTTOM : Bool
  UNDERCUT_ENABLE : Bool
  GUY_ENABLE : Bool
  GUY_HOLE_DIAMETER : ℚ
  GUY_EDGE_MARGIN_Y : ℚ
  GUY_TOP_IN_LIP : Bool
  GUY_BOTTOM_MODE : String
  deriving Repr

/-- The source defaults of the v2 mount macro. -/
def MountParams.defaults : MountParams where
  INSIDE_FORWARD_SHIFT := 3.8
  BACK_TRIM_ENABLE := true
  HORIZONTAL_LENGTH := 86.0
  WIDTH := 54.0
  HOLE_DIAMETER := 6.35
  SECOND_HOLE := true
  HOLE_SPACING_Y := 35.35
  HOLE_2_OFFSET := 3.5
  HOLE_PAIR_SHIFT := -1.75
  MIN_EDGE_MARGIN_Y := 2.5
  POCKET_ENABLE_TOP := true
  POCKET_ENABLE_BOTTOM := false
  UNDERCUT_ENABLE := true
  GUY_ENABLE := true
  GUY_HOLE_DIAMETER := 4.0
  GUY_EDGE_MARGIN_Y := 4.0
  GUY_TOP_IN_LIP := true
  GUY_BOTTOM_MODE := "outside_arm"

/-- `y1 = WIDTH/2 + HOLE_PAIR_SHIFT - HOLE_SPACING_Y/2`. -/
def mount_y1 (p : MountParams) : ℚ :=
  p.WIDTH / 2 + p.HOLE_PAIR_SHIFT - p.HOLE_SPACING_Y / 2

/-- `y2 = WIDTH/2 + HOLE_PAIR_SHIFT + HOLE_SPACING_Y/2 + HOLE_2_OFFSET`. -/
def mount_y2 (p : MountParams) : ℚ :=
  p.WIDTH / 2 + p.HOLE_PAIR_SHIFT + p.HOLE_SPACING_Y / 2 + p.HOLE_2_OFFSET

/-- `min_y = HOLE_DIAMETER/2 + MIN_EDGE_MARGIN_Y`. -/
def mount_min_y (p : MountParams) : ℚ :=
  p.HOLE_DIAMETER / 2 + p.MIN_EDGE_MARGIN_Y

/-- `max_y = WIDTH - HOLE_DIAMETER/2 - MIN_EDGE_MARGIN_Y`. -/
def mount_max_y (p : MountParams) : ℚ :=
  p.WIDTH - p.HOLE_DIAMETER / 2 - p.MIN_EDGE_MARGIN_Y

/-- `guy_y_positions`: raises when the guy-hole margins exceed WIDTH. -/
def guy_y_positions (p : MountParams) : Except MountErr (ℚ × ℚ) :=
  let r := p.GUY_HOLE_DIAMETER / 2
  let min_y := r + p.GUY_EDGE_MARGIN_Y
  let max_y := p.WIDTH - r - p.GUY_EDGE_MARGIN_Y
  if max_y ≤ min_y then .error .guyMarginsTooLarge else .ok (min_y, max_y)

/-- Kernel calls issued before the `HORIZONTAL_LENGTH` check: the three
inside-arm boxes and their two fuses, the optional back-trim box and cut,
and the clip-lip box. -/
def bracket_prefix_trace (p : MountParams) : List Ev :=
  let t1 : List Ev := [.box, .box, .box, .fuseOp, .fuseOp]
  let t2 := if p.BACK_TRIM_ENABLE then t1 ++ [.box, .cutOp] else t1
  t2 ++ [.box]

/-- Kernel calls issued before the mounting-hole margin checks: the bracket
prefix, the horizontal and outside-arm boxes with three fuses, and the
optional pocket and undercut box-and-cut pairs. -/
def pre_hole_trace (p : MountParams) : List Ev :=
  let t4 := bracket_prefix_trace p ++ [.box, .box, .fuseOp, .fuseOp, .fuseOp]
  let t5 := if p.POCKET_ENABLE_TOP then t4 ++ [.box, .cutOp] else t4
  let t6 := if p.POCKET_ENABLE_BOTTOM then t5 ++ [.box, .cutOp] else t5
  if p.UNDERCUT_ENABLE then t6 ++ [.box, .cutOp] else t6

/-- `cut_top_guy_holes_in_lip`: checks the guy margins then drills two lip
cylinders. -/
def top_guy_trace (p : MountParams) (t : List Ev) : List Ev × Option MountErr :=
  if p.GUY_ENABLE && p.GUY_TOP_IN_LIP then
    match guy_y_positions p with
    | .error e => (t, some e)
    | .ok _ => (t ++ [.cyl, .cyl, .cutOp, .cutOp], none)
  else (t, none)

/-- `cut_bottom_guy_holes`: checks the guy margins, then drills two
cylinders in the selected mode, or raises on an unknown mode string. -/
def bottom_guy_trace (p : MountParams) (t : List Ev) : List Ev × Option MountErr :=
  if p.GUY_ENABLE then
    match guy_y_positions p with
    | .error e => (t, some e)
    | .ok _ =>
      if p.GUY_BOTTOM_MODE = "outside_arm" then
        (t ++ [.cyl, .cyl, .cutOp, .cutOp], none)
      else if p.GUY_BOTTOM_MODE = "horizontal" then
        (t ++ [.cyl, .cyl, .cutOp, .cutOp], none)
      else (t, some .badGuyMode)
  else (t, none)

/-- The full kernel-call trace of `create_camera_mount` (v2 macro) together
with the error it raises, if any.  The mounting-hole margin checks sit
between the undercut cut and the hole-cylinder constructions, exactly as in
the source. -/
def create_camera_mount_trace (p : MountParams) : List Ev × Option MountErr :=
  if p.HORIZONTAL_LENGTH - p.INSIDE_FORWARD_SHIFT ≤ 5 then
    (bracket_prefix_trace p, some .horizTooSmall)
  else if mount_y1 p < mount_min_y p then
    (pre_hole_trace p, some (.hole1TooClose (mount_y1 p) (mount_min_y p)))
  else if p.SECOND_HOLE = true ∧ mount_max_y p < mount_y2 p then
    (pre_hole_trace p, some (.hole2TooClose (mount_y2 p) (mount_max_y p)))
  else
    let t8 := pre_hole_trace p ++
      (if p.SECOND_HOLE then [Ev.cyl, Ev.cyl, Ev.cutOp, Ev.cutOp]
       else [Ev.cyl, Ev.cutOp])
    match top_guy_trace p t8 with
    | (t9, some e) => (t9, some e)
    | (t9, none) => bottom_guy_trace p t9

/-- The concrete configuration of spec §8 scenario 8 pushed past the margin:
the v2 defaults with HOLE_SPACING_Y raised to 46, which places
y1 = 27 - 1.75 - 23 = 2.25 below min_y = 5.675. -/
def violatingMountParams : MountParams :=
  { MountParams.defaults with HOLE_SPACING_Y := 46 }

end Models3D

namespace Models3D

/-! ## Theorems -/

/-- Any clamp with ordered bounds lands inside those bounds. -/
theorem clamp_mem_of_le (v lo hi : ℚ) (h : lo ≤ hi) :
    lo ≤ clamp v lo hi ∧ clamp v lo hi ≤ hi :=
  ⟨le_max_left _ _, max_le h (min_le_left _ _)⟩

/-- No cylinder is constructed before the mounting-hole margin checks: every
kernel call up to that point is a box, a fuse or a cut. -/
theorem cyl_notMem_pre_hole_trace (p : MountParams) :
    Ev.cyl ∉ pre_hole_trace p := by
  rw [pre_hole_trace, bracket_prefix_trace]
  cases p.BACK_TRIM_ENABLE <;> cases p.POCKET_ENABLE_TOP <;>
    cases p.POCKET_ENABLE_BOTTOM <;> cases p.UNDERCUT_ENABLE <;> decide

/-- Removing an object by name leaves no object of that name. -/
theorem count_after_removeIf_self (doc : List String) (n : String) :
    (applyDocOp doc (.removeIf n)).count n = 0 := by
  rw [applyDocOp]
  split
  · refine List.count_eq_zero.mpr ?_
    intro hmem
    have h := (List.mem_filter.mp hmem).2
    simp at h
  · next h => exact List.count_eq_zero.mpr h

/-- Removing an object of a different name does not change the count. -/
theorem count_after_removeIf_other (doc : List String) (m n : String)
    (h : m ≠ n) :
    (applyDocOp doc (.removeIf n)).count m = doc.count m := by
  rw [applyDocOp]
  split
  · exact List.count_filter (by simp [h])
  · rfl

/-- Claim C3: for every parameter set of the sleeve scripts the derived sizes
satisfy `inner = buckle + 2 * clearance`, `outer = inner + 2 * wall`, hence
`outer - inner = 2 * wall` on both horizontal axes; and at the concrete
parameters buckle_width = 51.6, buckle_depth = 33.3, clearance = 0.8,
wall = 2.5 the derived values are exactly 53.2, 34.9, 58.2 and 39.9. -/
theorem sleeve_clearance_invariant :
    (∀ bw bd c w : ℚ,
      inner_w bw c = bw + 2 * c ∧
      inner_d bd c = bd + 2 * c ∧
      outer_w bw c w = inner_w bw c + 2 * w ∧
      outer_d bd c w = inner_d bd c + 2 * w ∧
      outer_w bw c w - inner_w bw c = 2 * w ∧
      outer_d bd c w - inner_d bd c = 2 * w) ∧
    inner_w (516/10) (8/10) = 532/10 ∧
    inner_d (333/10) (8/10) = 349/10 ∧
    outer_w (516/10) (8/10) (25/10) = 582/10 ∧
    outer_d (333/10) (8/10) (25/10) = 399/10 := by
  refine ⟨fun bw bd c w => ?_, by norm_num [inner_w], by norm_num [inner_d],
    by norm_num [outer_w, inner_w], by norm_num [outer_d, inner_d]⟩
  refine ⟨rfl, rfl, rfl, rfl, ?_, ?_⟩
  · simp [outer_w]
  · simp [outer_d]

/-- Claim C5: in `make_rounded_box`, whenever the requested corner radius is
at least half the smaller cross-section dimension (of a box with positive
dimensions) the effective radius equals `min(length_x, width_y)/2 - 0.1`,
and whenever `0 < corner_r` is at most that clamped bound the requested
radius is used unchanged. -/
theorem make_rounded_box_radius_clamp (length_x width_y corner_r : ℚ)
    (hx : 0 < length_x) (hy : 0 < width_y) :
    (min length_x width_y / 2 ≤ corner_r →
      effective_corner_radius length_x width_y corner_r =
        min length_x width_y / 2 - 1/10) ∧
    (0 < corner_r → corner_r ≤ min length_x width_y / 2 - 1/10 →
      effective_corner_radius length_x width_y corner_r = corner_r) := by
  have hmin : 0 < min length_x width_y := lt_min hx hy
  constructor
  · intro hbig
    have hpos : 0 < corner_r := lt_of_lt_of_le (by linarith) hbig
    simp only [effective_corner_radius, if_pos hpos]
    exact min_eq_right (by linarith)
  · intro hpos hsmall
    simp only [effective_corner_radius, if_pos hpos]
    exact min_eq_left hsmall

/-- Witness for C5 at length_x = 20, width_y = 10, corner_r = 6 (clamped to
4.9) and corner_r = 3 (used unchanged). -/
theorem make_rounded_box_radius_clamp_witness :
    effective_corner_radius 20 10 6 = 49/10 ∧
    effective_corner_radius 20 10 3 = 3 := by
  constructor
  · have h := (make_rounded_box_radius_clamp 20 10 6 (by norm_num) (by norm_num)).1
      (by norm_num)
    rw [h]; norm_num
  · exact (make_rounded_box_radius_clamp 20 10 3 (by norm_num) (by norm_num)).2
      (by norm_num) (by norm_num)

/-- Claim C6: with TARGET_FREQ_MHZ = 127 and C_MM_PER_SEC = 299792458000 the
wavelength is within 1 mm of 2360 mm, the nominal quarter wave is within
0.5 mm of 590 mm, and NUM_SECTIONS is the ceiling of the total antenna
length divided by (MAX_PRINT_HEIGHT - JOINT_LENGTH) and is at least 1. -/
theorem antenna_calculated_dimensions :
    |WAVELENGTH - 2360| < 1 ∧
    |QUARTER_WAVE_NOMINAL - 590| < 1/2 ∧
    NUM_SECTIONS = ⌈TOTAL_ANTENNA_LENGTH / (MAX_PRINT_HEIGHT - JOINT_LENGTH)⌉ ∧
    1 ≤ NUM_SECTIONS := by
  refine ⟨?_, ?_, rfl, ?_⟩
  · rw [abs_sub_lt_iff]
    norm_num [WAVELENGTH, C_MM_PER_SEC, TARGET_FREQ_MHZ]
  · rw [abs_sub_lt_iff]
    norm_num [QUARTER_WAVE_NOMINAL, WAVELENGTH, C_MM_PER_SEC, TARGET_FREQ_MHZ]
  · have h9 : NUM_SECTIONS = 9 := by
      rw [NUM_SECTIONS, Int.ceil_eq_iff]
      norm_num [TOTAL_ANTENNA_LENGTH, HALF_WAVE, QUARTER_WAVE, HALF_WAVE_NOMINAL,
        QUARTER_WAVE_NOMINAL, WAVELENGTH, C_MM_PER_SEC, TARGET_FREQ_MHZ,
        VF_RADIATOR, TRIM_FACTOR, SECTION_BODY_LENGTH, MAX_PRINT_HEIGHT, JOINT_LENGTH]
    rw [h9]; norm_num

/-- Claim C8: when the horizontal arm is thick enough
(`HORIZONTAL_THICKNESS - MIN_FLOOR_THICKNESS ≥ 0.1`, and likewise for the
undercut floor) the depth actually cut for the top compression pocket never
exceeds `HORIZONTAL_THICKNESS - MIN_FLOOR_THICKNESS` and the depth of the
underside damping slot never exceeds
`HORIZONTAL_THICKNESS - UNDERCUT_MIN_FLOOR`, whatever depths are requested. -/
theorem pocket_floor_preserved (PD UD HT MFT UMF : ℚ)
    (hp : 1/10 ≤ HT - MFT) (hu : 1/10 ≤ HT - UMF) :
    pocket_cut_depth PD HT MFT ≤ HT - MFT ∧
    undercut_cut_depth UD HT UMF ≤ HT - UMF := by
  constructor
  · have hmax : max (1/10 : ℚ) (HT - MFT) = HT - MFT := max_eq_right hp
    simp only [pocket_cut_depth, clamp, hmax]
    exact max_le hp (min_le_left _ _)
  · have hmax : max (1/10 : ℚ) (HT - UMF) = HT - UMF := max_eq_right hu
    simp only [undercut_cut_depth, clamp, hmax]
    exact max_le hu (min_le_left _ _)

/-- Witness for C8 at the source defaults of the v2 macro:
POCKET_DEPTH = 1.8, UNDERCUT_DEPTH = 1.2, HORIZONTAL_THICKNESS = 5,
MIN_FLOOR_THICKNESS = 1.2, UNDERCUT_MIN_FLOOR = 2. -/
theorem pocket_floor_preserved_witness :
    pocket_cut_depth (18/10) 5 (12/10) ≤ 5 - 12/10 ∧
    undercut_cut_depth (12/10) 5 2 ≤ 5 - 2 :=
  pocket_floor_preserved (18/10) (12/10) 5 (12/10) 2 (by norm_num) (by norm_num)

/-- Claim C7: `create_bottom_cap` produces exactly NUM_DRAIN_HOLES drain-hole
centers, and for every index `i` below NUM_DRAIN_HOLES the i-th center lies
at angle `i * (360 / NUM_DRAIN_HOLES) + 45` degrees on the circle of radius
`OUTER_R - WALL_THICKNESS`, with `x = radius * cos(angle)` and
`y = radius * sin(angle)`. -/
theorem bottom_cap_drain_hole_placement (K : Type) [Field K]
    (piK : K) (cosK sinK : K → K) :
    (bottom_cap_drain_centers K piK cosK sinK).length = NUM_DRAIN_HOLES ∧
    ∀ i : ℕ, i < NUM_DRAIN_HOLES →
      (bottom_cap_drain_centers K piK cosK sinK)[i]? =
        some (((OUTER_R - WALL_THICKNESS : ℚ) : K) *
                cosK (radians piK ((i : K) * (360 / (NUM_DRAIN_HOLES : K)) + 45)),
              ((OUTER_R - WALL_THICKNESS : ℚ) : K) *
                sinK (radians piK ((i : K) * (360 / (NUM_DRAIN_HOLES : K)) + 45))) := by
  constructor
  · rw [bottom_cap_drain_centers, List.length_map, List.length_range]
  · intro i h
    rw [bottom_cap_drain_centers, List.getElem?_map, List.getElem?_range h]
    rfl

/-- Witness for C7 over `ℚ` with constant stand-ins for cos and sin, at
index 2. -/
theorem bottom_cap_drain_hole_placement_witness :
    (bottom_cap_drain_centers ℚ 0 (fun _ => 1) (fun _ => 0)).length =
      NUM_DRAIN_HOLES ∧
    (bottom_cap_drain_centers ℚ 0 (fun _ => 1) (fun _ => 0))[2]? =
      some (((OUTER_R - WALL_THICKNESS : ℚ) : ℚ) *
              (fun _ : ℚ => (1 : ℚ))
                (radians 0 (((2 : ℕ) : ℚ) * (360 / ((NUM_DRAIN_HOLES : ℕ) : ℚ)) + 45)),
            ((OUTER_R - WALL_THICKNESS : ℚ) : ℚ) *
              (fun _ : ℚ => (0 : ℚ))
                (radians 0 (((2 : ℕ) : ℚ) * (360 / ((NUM_DRAIN_HOLES : ℕ) : ℚ)) + 45))) :=
  ⟨(bottom_cap_drain_hole_placement ℚ 0 (fun _ => 1) (fun _ => 0)).1,
   (bottom_cap_drain_hole_placement ℚ 0 (fun _ => 1) (fun _ => 0)).2 2
     (by norm_num [NUM_DRAIN_HOLES])⟩

/-- Claim C10: after `place_side_by_side` the pad bounding box has its minimum
corner at the origin, the strip has YMin = ZMin = 0 and
XMin = pad XMax + PREVIEW_GAP + PREVIEW_PAD, and when
PREVIEW_GAP + PREVIEW_PAD is positive the two bounding boxes share no
point. -/
theorem place_side_by_side_layout (gap padextra : ℚ) (pad strip : BB) :
    (place_side_by_side gap padextra pad strip).1.xmin = 0 ∧
    (place_side_by_side gap padextra pad strip).1.ymin = 0 ∧
    (place_side_by_side gap padextra pad strip).1.zmin = 0 ∧
    (place_side_by_side gap padextra pad strip).2.ymin = 0 ∧
    (place_side_by_side gap padextra pad strip).2.zmin = 0 ∧
    (place_side_by_side gap padextra pad strip).2.xmin =
      (place_side_by_side gap padextra pad strip).1.xmax + gap + padextra ∧
    (0 < gap + padextra → ∀ q : ℚ × ℚ × ℚ,
      ¬(memBB (place_side_by_side gap padextra pad strip).1 q ∧
        memBB (place_side_by_side gap padextra pad strip).2 q)) := by
  refine ⟨by simp [place_side_by_side, translateBB],
    by simp [place_side_by_side, translateBB],
    by simp [place_side_by_side, translateBB],
    by simp [place_side_by_side, translateBB],
    by simp [place_side_by_side, translateBB],
    by simp [place_side_by_side, translateBB], ?_⟩
  intro hpos q ⟨hq1, hq2⟩
  have h1 : q.1 ≤ (place_side_by_side gap padextra pad strip).1.xmax := hq1.2.1
  have h2 : (place_side_by_side gap padextra pad strip).2.xmin ≤ q.1 := hq2.1
  have hx : (place_side_by_side gap padextra pad strip).2.xmin =
      (place_side_by_side gap padextra pad strip).1.xmax + gap + padextra := by
    simp [place_side_by_side, translateBB]
  rw [hx] at h2
  linarith

/-- Witness for C10 at the concrete v2 preview constants (gap 10, pad 5) and
the bounding boxes of the two TPU solids, checked at the point (30, 0, 0). -/
theorem place_side_by_side_layout_witness :
    ¬(memBB (place_side_by_side 10 5 ⟨2, 26, 4, 50, 32/10, 48/10⟩
              ⟨6, 66, 3, 51, 0, 1⟩).1 (30, 0, 0) ∧
      memBB (place_side_by_side 10 5 ⟨2, 26, 4, 50, 32/10, 48/10⟩
              ⟨6, 66, 3, 51, 0, 1⟩).2 (30, 0, 0)) :=
  (place_side_by_side_layout 10 5 ⟨2, 26, 4, 50, 32/10, 48/10⟩
      ⟨6, 66, 3, 51, 0, 1⟩).2.2.2.2.2.2 (by norm_num) (30, 0, 0)

/-- Claim C4: a fillet step never propagates a kernel failure.  In
`safe_fillet` (mount macros), for positive radius, whenever the candidate
edge set is empty or the `makeFillet` call raises, the result is the
pre-fillet solid (the shape after the attempted removeSplitter); and in the
top-rim fillet of the sleeve scripts, whenever the matching edge set is
empty or `makeFillet` raises, the result is the pre-fillet solid. -/
theorem fillet_failure_degrades_gracefully :
    (∀ (rs mf : _) (shape : KShape) (radius : ℚ), 0 < radius →
      (fillet_candidate_edges ((rs shape).getD shape) = [] ∨
        mf ((rs shape).getD shape) radius
          (fillet_candidate_edges ((rs shape).getD shape)) = none) →
      safe_fillet rs mf shape radius = (rs shape).getD shape) ∧
    (∀ (mf : _) (shape : KShape) (r h : ℚ),
      (top_rim_candidate_edges shape h = [] ∨
        mf shape r (top_rim_candidate_edges shape h) = none) →
      top_rim_fillet_step mf shape r h = shape) := by
  constructor
  · intro rs mf shape radius hr hfail
    rw [safe_fillet, if_neg (not_le.mpr hr)]
    rcases hfail with hempty | hnone
    · simp [hempty]
    · rcases hcand : fillet_candidate_edges ((rs shape).getD shape) with _ | ⟨e, es⟩
      · simp [hcand]
      · rw [hcand] at hnone
        simp [hcand, hnone]
  · intro mf shape r h hfail
    rw [top_rim_fillet_step]
    by_cases hr : 0 < r
    · rw [if_pos hr]
      rcases hfail with hempty | hnone
      · simp [hempty]
      · rcases hcand : top_rim_candidate_edges shape h with _ | ⟨e, es⟩
        · simp [hcand]
        · rw [hcand] at hnone
          simp [hcand, hnone]
    · rw [if_neg hr]

/-- Witness for C4: an always-raising `makeFillet` against a shape with one
tall edge still returns the pre-fillet solid, for both fillet steps. -/
theorem fillet_failure_degrades_gracefully_witness :
    safe_fillet (fun _ => none) (fun _ _ _ => none)
      ⟨7, [⟨0, 0, 0, 0, 0, 20⟩]⟩ 3 =
      ((fun _ : KShape => (none : Option KShape)) ⟨7, [⟨0, 0, 0, 0, 0, 20⟩]⟩).getD
        ⟨7, [⟨0, 0, 0, 0, 0, 20⟩]⟩ ∧
    top_rim_fillet_step (fun _ _ _ => none) ⟨7, [⟨0, 0, 0, 0, 0, 20⟩]⟩ (12/10) 20 =
      ⟨7, [⟨0, 0, 0, 0, 0, 20⟩]⟩ := by
  constructor
  · exact fillet_failure_degrades_gracefully.1 (fun _ => none) (fun _ _ _ => none)
      ⟨7, [⟨0, 0, 0, 0, 0, 20⟩]⟩ 3 (by norm_num) (Or.inr rfl)
  · exact fillet_failure_degrades_gracefully.2 (fun _ _ _ => none)
      ⟨7, [⟨0, 0, 0, 0, 0, 20⟩]⟩ (12/10) 20 (Or.inr rfl)

/-- Claim C9: in the TPU strips macro, provided each clamp has ordered bounds
(0.2 ≤ POCKET_DEPTH, 0.2 ≤ UNDERCUT_DEPTH, 5 ≤ HORIZONTAL_LENGTH -
INSIDE_FORWARD_SHIFT, 5 ≤ WIDTH) and the undercut feature is enabled, the
pocket insert thickness lies in [0.2, POCKET_DEPTH], and the undercut strip
is produced with thickness in [0.2, UNDERCUT_DEPTH], length at most the
horizontal run and width at most WIDTH, for every requested TPU
thickness/length/width. -/
theorem tpu_strips_fit_their_slots (p : TpuParams)
    (hpd : 2/10 ≤ p.POCKET_DEPTH) (hud : 2/10 ≤ p.UNDERCUT_DEPTH)
    (hhal : 5 ≤ p.HORIZONTAL_LENGTH - p.INSIDE_FORWARD_SHIFT)
    (hw : 5 ≤ p.WIDTH) (hen : p.UNDERCUT_ENABLE = true) :
    (2/10 ≤ (make_tpu_pocket_insert_shape p).2.2.2 ∧
      (make_tpu_pocket_insert_shape p).2.2.2 ≤ p.POCKET_DEPTH) ∧
    make_tpu_undercut_strip_shape p =
      .ok (⟨tpu_strip_x p, tpu_strip_y p, 0, tpu_strip_len p, tpu_strip_w p,
            tpu_strip_t p⟩,
           tpu_strip_len p, tpu_strip_w p, tpu_strip_t p) ∧
    2/10 ≤ tpu_strip_t p ∧ tpu_strip_t p ≤ p.UNDERCUT_DEPTH ∧
    tpu_strip_len p ≤ p.HORIZONTAL_LENGTH - p.INSIDE_FORWARD_SHIFT ∧
    tpu_strip_w p ≤ p.WIDTH := by
  have hhal0 : (5 : ℚ) ≤ tpu_hal p := hhal
  have hpos : ¬(tpu_hal p ≤ 0) := by
    rw [tpu_hal]; linarith [hhal]
  refine ⟨clamp_mem_of_le p.TPU_POCKET_THICKNESS (2/10) p.POCKET_DEPTH hpd,
    ?_, (clamp_mem_of_le _ _ _ hud).1, (clamp_mem_of_le _ _ _ hud).2, ?_, ?_⟩
  · rw [make_tpu_undercut_strip_shape, hen]
    simp only [Bool.not_true, Bool.false_eq_true, if_false, if_neg hpos]
  · show tpu_strip_len p ≤ tpu_hal p
    rw [tpu_strip_len]
    by_cases hm : p.TPU_UNDERCUT_MATCH_SLOT = true
    · rw [if_pos hm]
      exact (clamp_mem_of_le _ _ _ hhal0).2
    · rw [if_neg hm]
      exact (clamp_mem_of_le _ _ _ hhal0).2
  · rw [tpu_strip_w]
    by_cases hm : p.TPU_UNDERCUT_MATCH_SLOT = true
    · rw [if_pos hm]
      exact (clamp_mem_of_le _ _ _ hw).2
    · rw [if_neg hm]
      exact (clamp_mem_of_le _ _ _ hw).2

/-- Witness for C9 at the source defaults of the v2 TPU macro. -/
theorem tpu_strips_fit_their_slots_witness :
    (2/10 ≤ (make_tpu_pocket_insert_shape TpuParams.defaults).2.2.2 ∧
      (make_tpu_pocket_insert_shape TpuParams.defaults).2.2.2 ≤
        TpuParams.defaults.POCKET_DEPTH) ∧
    make_tpu_undercut_strip_shape TpuParams.defaults =
      .ok (⟨tpu_strip_x TpuParams.defaults, tpu_strip_y TpuParams.defaults, 0,
            tpu_strip_len TpuParams.defaults, tpu_strip_w TpuParams.defaults,
            tpu_strip_t TpuParams.defaults⟩,
           tpu_strip_len TpuParams.defaults, tpu_strip_w TpuParams.defaults,
           tpu_strip_t TpuParams.defaults) ∧
    2/10 ≤ tpu_strip_t TpuParams.defaults ∧
    tpu_strip_t TpuParams.defaults ≤ TpuParams.defaults.UNDERCUT_DEPTH ∧
    tpu_strip_len TpuParams.defaults ≤ TpuParams.defaults.HORIZONTAL_LENGTH -
      TpuParams.defaults.INSIDE_FORWARD_SHIFT ∧
    tpu_strip_w TpuParams.defaults ≤ TpuParams.defaults.WIDTH :=
  tpu_strips_fit_their_slots TpuParams.defaults (by norm_num [TpuParams.defaults])
    (by norm_num [TpuParams.defaults]) (by norm_num [TpuParams.defaults])
    (by norm_num [TpuParams.defaults]) (by norm_num [TpuParams.defaults])

/-- Claim C1, counterexample: at the v2 defaults with HOLE_SPACING_Y = 46 the
computed y1 = 2.25 violates min_y = 5.675 and `create_camera_mount` does
raise the error carrying those numbers — but a primitive construction (a
box) has already been issued before the check, so the rejection does not
happen before any geometry is constructed. -/
theorem mount_margin_rejection_not_before_geometry :
    (create_camera_mount_trace violatingMountParams).2 =
      some (MountErr.hole1TooClose (9/4) (227/40)) ∧
    Ev.box ∈ (create_camera_mount_trace violatingMountParams).1 := by
  have h5 : ¬(violatingMountParams.HORIZONTAL_LENGTH -
      violatingMountParams.INSIDE_FORWARD_SHIFT ≤ 5) := by
    norm_num [violatingMountParams, MountParams.defaults]
  have hy : mount_y1 violatingMountParams < mount_min_y violatingMountParams := by
    norm_num [mount_y1, mount_min_y, violatingMountParams, MountParams.defaults]
  have hy1v : mount_y1 violatingMountParams = 9/4 := by
    norm_num [mount_y1, violatingMountParams, MountParams.defaults]
  have hminv : mount_min_y violatingMountParams = 227/40 := by
    norm_num [mount_min_y, violatingMountParams, MountParams.defaults]
  constructor
  · rw [create_camera_mount_trace, if_neg h5, if_pos hy]
    rw [show (pre_hole_trace violatingMountParams,
        some (MountErr.hole1TooClose (mount_y1 violatingMountParams)
          (mount_min_y violatingMountParams))).2 =
        some (MountErr.hole1TooClose (mount_y1 violatingMountParams)
          (mount_min_y violatingMountParams)) from rfl]
    rw [hy1v, hminv]
  · rw [create_camera_mount_trace, if_neg h5, if_pos hy]
    decide

/-- Claim C1 (amended): when a computed mounting-hole position violates its
edge margin (y1 below min_y, or, with SECOND_HOLE, y2 above max_y),
`create_camera_mount` raises an error reporting the numeric computed
position and the violated bound, and the rejection happens before any hole
cylinder is constructed or cut — though after the bracket body primitives
and boolean operations have been issued. -/
theorem mount_margin_check_before_any_hole :
    (∀ p : MountParams, 5 < p.HORIZONTAL_LENGTH - p.INSIDE_FORWARD_SHIFT →
      mount_y1 p < mount_min_y p →
      (create_camera_mount_trace p).2 =
        some (MountErr.hole1TooClose (mount_y1 p) (mount_min_y p)) ∧
      Ev.cyl ∉ (create_camera_mount_trace p).1) ∧
    (∀ p : MountParams, 5 < p.HORIZONTAL_LENGTH - p.INSIDE_FORWARD_SHIFT →
      ¬ mount_y1 p < mount_min_y p → p.SECOND_HOLE = true →
      mount_max_y p < mount_y2 p →
      (create_camera_mount_trace p).2 =
        some (MountErr.hole2TooClose (mount_y2 p) (mount_max_y p)) ∧
      Ev.cyl ∉ (create_camera_mount_trace p).1) := by
  constructor
  · intro p h5 hy1
    rw [create_camera_mount_trace, if_neg (not_le.mpr h5), if_pos hy1]
    exact ⟨rfl, cyl_notMem_pre_hole_trace p⟩
  · intro p h5 hy1 hsec hy2
    rw [create_camera_mount_trace, if_neg (not_le.mpr h5), if_neg hy1,
      if_pos ⟨hsec, hy2⟩]
    exact ⟨rfl, cyl_notMem_pre_hole_trace p⟩

/-- Witness for the amended C1 at the violating configuration. -/
theorem mount_margin_check_before_any_hole_witness :
    (create_camera_mount_trace violatingMountParams).2 =
      some (MountErr.hole1TooClose (mount_y1 violatingMountParams)
        (mount_min_y violatingMountParams)) ∧
    Ev.cyl ∉ (create_camera_mount_trace violatingMountParams).1 :=
  mount_margin_check_before_any_hole.1 violatingMountParams
    (by norm_num [violatingMountParams, MountParams.defaults])
    (by norm_num [mount_y1, mount_min_y, violatingMountParams, MountParams.defaults])

/-- Claim C2, counterexample: the camera-mount macro issues no removal of a
stale "WindowCameraMount" before registering, and running it twice against
the same (initially empty) document leaves two registered objects under
that part name, not one. -/
theorem mount_rerun_accumulates :
    DocOp.removeIf "WindowCameraMount" ∉ mount_doc_ops ∧
    (runDocOps mount_doc_ops (runDocOps mount_doc_ops [])).count
      "WindowCameraMount" = 2 := by
  constructor
  · decide
  · rfl

/-- Claim C2 (amended): the sleeve scripts remove any stale object of the
same name before registering, so even repeated runs leave exactly one
object under the part name; the camera-mount and TPU macros issue no such
removal, and each run adds one more object under the part name, so
duplicates accumulate across reruns. -/
theorem clean_rerun_only_in_sleeve_scripts :
    (∀ doc : List String,
      (runDocOps sleeve_doc_ops doc).count "BuckleSleeveEnclosed" = 1) ∧
    (∀ doc : List String,
      (runDocOps cshape_doc_ops doc).count "BuckleSleeveC" = 1) ∧
    (∀ doc : List String,
      (runDocOps mount_doc_ops doc).count "WindowCameraMount" =
        doc.count "WindowCameraMount" + 1) ∧
    (∀ doc : List String,
      (runDocOps tpu_v2_doc_ops doc).count "TPU_Pocket_Insert" =
        doc.count "TPU_Pocket_Insert" + 1) := by
  refine ⟨?_, ?_, ?_, ?_⟩
  · intro doc
    simp only [runDocOps, sleeve_doc_ops, List.foldl_cons, List.foldl_nil]
    rw [show ∀ l : List String,
        applyDocOp l (.add "BuckleSleeveEnclosed") = l ++ ["BuckleSleeveEnclosed"]
      from fun l => rfl]
    rw [List.count_append,
      count_after_removeIf_other _ _ _ (by decide),
      count_after_removeIf_other _ _ _ (by decide),
      count_after_removeIf_self]
    rfl
  · intro doc
    simp only [runDocOps, cshape_doc_ops, List.foldl_cons, List.foldl_nil]
    rw [show ∀ l : List String,
        applyDocOp l (.add "BuckleSleeveC") = l ++ ["BuckleSleeveC"]
      from fun l => rfl]
    rw [List.count_append,
      count_after_removeIf_other _ _ _ (by decide),
      count_after_removeIf_other _ _ _ (by decide),
      count_after_removeIf_other _ _ _ (by decide),
      count_after_removeIf_other _ _ _ (by decide),
      count_after_removeIf_self]
    rfl
  · intro doc
    simp only [runDocOps, mount_doc_ops, List.foldl_cons, List.foldl_nil,
      applyDocOp]
    rw [List.count_append]
    rfl
  · intro doc
    simp only [runDocOps, tpu_v2_doc_ops, List.foldl_cons, List.foldl_nil,
      applyDocOp]
    rw [List.count_append, List.count_append]
    have h : (["TPU_Undercut_Strip"] : List String).count "TPU_Pocket_Insert" = 0 := by
      decide
    rw [h]
    rfl

end Models3D
